import Mathlib

/-!
Verification of the rhythmic-ribbon tool server.

The source is a single Python module holding three constant tables
(RIBBON_TAXONOMY, COMPOSITIONAL_RULES, STYLE_VARIATIONS), one formatting
helper (format_taxonomy_section) and eight tools exposed to the host
runtime.  The tables are nested dictionaries whose leaf values are strings
or lists of strings; we embed them with the inductive type Val below.
String operations are modelled for the ASCII strings actually involved:
pyTitle models Python str.title, pyRepr models Python repr on these
dictionaries and lists, dGet models Python dictionary indexing (returning
none where Python would raise KeyError).
-/

/-- Embedding of the Python values stored in the constant tables: a string,
a list of strings, or a dictionary with insertion-ordered string keys. -/
inductive Val where
  | s : String → Val
  | l : List String → Val
  | d : List (String × Val) → Val

/-- Python dictionary indexing d[k]: first value bound to the key, or none
(Python: KeyError). -/
def dGet : List (String × Val) → String → Option Val
  | [], _ => none
  | p :: ps, k => if p.1 = k then some p.2 else dGet ps k

/-- Python isinstance(v, dict) guarded access to the entry list. -/
def Val.asDict : Val → Option (List (String × Val))
  | .d ps => some ps
  | _ => none

/-- Python isinstance(v, list) guarded access to the elements. -/
def Val.asList : Val → Option (List String)
  | .l xs => some xs
  | _ => none

mutual

/-- Python repr of an embedded value (all strings in the tables are free of
quotes and escapes, so repr of a string is the string in single quotes). -/
def pyRepr : Val → String
  | .s st => "'" ++ st ++ "'"
  | .l xs => "[" ++ String.intercalate ", " (xs.map (fun x => "'" ++ x ++ "'")) ++ "]"
  | .d ps => "\x7b" ++ String.intercalate ", " (pyReprEntries ps) ++ "\x7d"

/-- Python repr of the entries of a dictionary, in insertion order. -/
def pyReprEntries : List (String × Val) → List String
  | [] => []
  | p :: ps => ("'" ++ p.1 ++ "': " ++ pyRepr p.2) :: pyReprEntries ps

end

/-- Python str(v) as used in the f-strings: a string prints as itself, a
list or dictionary prints as its repr. -/
def pyStr : Val → String
  | .s st => st
  | v => pyRepr v

/-- Python str.title for the ASCII strings involved: a letter that follows
a non-letter is uppercased, a letter that follows a letter is lowercased. -/
def pyTitleAux : Bool → List Char → List Char
  | _, [] => []
  | prevAlpha, c :: cs =>
    if c.isAlpha then
      (if prevAlpha then c.toLower else c.toUpper) :: pyTitleAux true cs
    else
      c :: pyTitleAux false cs

/-- Python str.title on a whole string. -/
def pyTitle (s : String) : String := ⟨pyTitleAux false s.data⟩

/-- Python str.replace with the one-character pattern underscore and the
one-character replacement space, as the code always uses it: substitute
every underscore character by a space. -/
def pyReplaceUS (s : String) : String :=
  ⟨s.data.map (fun c => if c = '_' then ' ' else c)⟩

/-- Python str.upper for the ASCII section names it is applied to. -/
def pyUpper (s : String) : String := ⟨s.data.map Char.toUpper⟩

/-!  The constant tables (server.py lines 20-236).  A Python dictionary is
embedded as the list of its entries in insertion order.  The entries of a
few sub-dictionaries that the theorems refer to by name are factored into
named definitions; the remaining entries are inlined. -/

/-- Entries of RIBBON_TAXONOMY movement_patterns spirals. -/
def spiralsEntries : List (String × Val) :=
  [("types", .l ["vertical", "horizontal", "diagonal", "conical"]),
   ("properties", .l ["tight", "loose", "uniform", "progressive"]),
   ("dynamics", .l ["accelerating", "decelerating", "constant", "pulsing"]),
   ("technical_notes", .s "Arm must maintain consistent radius; wrist rotation drives spiral formation")]

/-- Entries of RIBBON_TAXONOMY, key movement_patterns. -/
def movementPatterns : List (String × Val) :=
  [("spirals", .d spiralsEntries),
   ("circles", .d
     [("types", .l ["full_circles", "half_circles", "figure_8", "infinity"]),
      ("planes", .l ["horizontal", "vertical", "diagonal", "tilted"]),
      ("sizes", .l ["small", "medium", "large", "giant"]),
      ("technical_notes", .s "Shoulder stability required; elbow extends for larger circles")]),
   ("snakes", .d
     [("types", .l ["horizontal_snake", "vertical_snake", "diagonal_snake"]),
      ("wave_properties", .l ["amplitude", "frequency", "symmetry", "decay"]),
      ("transitions", .l ["into_spiral", "into_throw", "into_circle"]),
      ("technical_notes", .s "Rapid wrist oscillation; arm moves in opposite direction to ribbon")]),
   ("throws", .d
     [("types", .l ["vertical", "boomerang", "stick_throw", "escape"]),
      ("heights", .l ["low", "medium", "high", "ceiling"]),
      ("rotations", .l ["none", "half_turn", "full_turn", "multiple"]),
      ("technical_notes", .s "Release point determines trajectory; catch requires visual tracking")]),
   ("wraps", .d
     [("types", .l ["body_wrap", "limb_wrap", "neck_wrap", "waist_wrap"]),
      ("entry_methods", .l ["spiral_into", "throw_into", "pass_through"]),
      ("exit_methods", .l ["unwrap", "pull_through", "throw_out"]),
      ("technical_notes", .s "Tension control critical; body position affects wrap geometry")]),
   ("swings", .d
     [("types", .l ["pendulum", "arc", "circular", "elliptical"]),
      ("amplitudes", .l ["small", "medium", "large", "full_extension"]),
      ("rhythms", .l ["regular", "syncopated", "accelerating", "decelerating"]),
      ("technical_notes", .s "Momentum management; gravity assists natural motion")])]

/-- Entries of RIBBON_TAXONOMY spatial_relationships height_zones floor. -/
def floorEntries : List (String × Val) :=
  [("range", .s "0-50cm"),
   ("techniques", .l ["floor_rolls", "low_snakes", "ground_spirals"])]

/-- Entries of RIBBON_TAXONOMY spatial_relationships, key height_zones. -/
def heightZonesEntries : List (String × Val) :=
  [("floor", .d floorEntries),
   ("low", .d [("range", .s "50cm-1m"),
     ("techniques", .l ["low_circles", "leg_passes", "seated_elements"])]),
   ("mid", .d [("range", .s "1-1.5m"),
     ("techniques", .l ["standard_circles", "body_wraps", "horizontal_patterns"])]),
   ("high", .d [("range", .s "1.5-2.5m"),
     ("techniques", .l ["overhead_circles", "vertical_spirals", "high_throws"])]),
   ("ceiling", .d [("range", .s "2.5m+"),
     ("techniques", .l ["maximum_throws", "ceiling_touches", "full_extension"])])]

/-- Entries of RIBBON_TAXONOMY, key spatial_relationships. -/
def spatialRelationships : List (String × Val) :=
  [("height_zones", .d heightZonesEntries),
   ("distance_from_body", .d
     [("contact", .d [("range", .s "0-20cm"),
        ("uses", .l ["wraps", "body_passes", "close_spirals"])]),
      ("near", .d [("range", .s "20-100cm"),
        ("uses", .l ["standard_elements", "medium_circles", "controlled_patterns"])]),
      ("mid", .d [("range", .s "1-2m"),
        ("uses", .l ["extended_circles", "large_spirals", "spatial_fills"])]),
      ("far", .d [("range", .s "2-4m"),
        ("uses", .l ["full_ribbon_extensions", "throws", "maximum_reach"])]),
      ("extreme", .d [("range", .s "4m+"),
        ("uses", .l ["stick_end_releases", "maximum_throws", "aerial_work"])])]),
   ("planes", .d
     [("horizontal", .d [("orientation", .s "parallel_to_floor"),
        ("elements", .l ["circles", "snakes", "spirals"])]),
      ("vertical", .d [("orientation", .s "perpendicular_to_floor"),
        ("elements", .l ["vertical_circles", "drops", "rises"])]),
      ("diagonal", .d [("orientation", .s "45_degrees"),
        ("elements", .l ["diagonal_snakes", "tilted_spirals", "angled_throws"])]),
      ("rotating", .d [("orientation", .s "changing"),
        ("elements", .l ["plane_transitions", "3d_spirals", "complex_paths"])])]),
   ("floor_patterns", .d
     [("linear", .l ["straight_lines", "zigzags", "spiraling_lines"]),
      ("circular", .l ["circles", "ellipses", "figure_8s"]),
      ("geometric", .l ["triangles", "squares", "star_patterns"]),
      ("organic", .l ["curves", "waves", "freeform"])])]

/-- Entries of RIBBON_TAXONOMY, key temporal_dynamics. -/
def temporalDynamics : List (String × Val) :=
  [("speed_variations", .d
     [("very_slow", .d [("tempo", .s "largo"),
        ("uses", .l ["dramatic_holds", "controlled_tension", "lyrical_moments"])]),
      ("slow", .d [("tempo", .s "adagio"),
        ("uses", .l ["graceful_transitions", "flow_emphasis", "aesthetic_shapes"])]),
      ("moderate", .d [("tempo", .s "andante"),
        ("uses", .l ["standard_elements", "balanced_pacing", "technical_precision"])]),
      ("fast", .d [("tempo", .s "allegro"),
        ("uses", .l ["quick_transitions", "rapid_patterns", "energetic_sequences"])]),
      ("very_fast", .d [("tempo", .s "presto"),
        ("uses", .l ["lightning_snakes", "rapid_circles", "virtuosic_displays"])])]),
   ("rhythmic_patterns", .d
     [("regular", .d [("structure", .s "consistent_beats"), ("feel", .s "steady_pulse")]),
      ("syncopated", .d [("structure", .s "off_beat_accents"), ("feel", .s "unexpected_emphasis")]),
      ("polyrhythmic", .d [("structure", .s "multiple_rhythms"), ("feel", .s "complex_layering")]),
      ("rubato", .d [("structure", .s "flexible_timing"), ("feel", .s "expressive_freedom")]),
      ("metric_modulation", .d [("structure", .s "tempo_shifts"), ("feel", .s "dynamic_changes")])]),
   ("acceleration_curves", .d
     [("linear", .s "steady_increase"),
      ("exponential", .s "rapid_buildup"),
      ("logarithmic", .s "quick_start_then_slow"),
      ("sigmoid", .s "slow_fast_slow"),
      ("stepped", .s "discrete_speed_changes")]),
   ("transition_timing", .d
     [("immediate", .d [("duration", .s "0-0.5s"), ("character", .s "sharp_contrast")]),
      ("quick", .d [("duration", .s "0.5-1s"), ("character", .s "clear_change")]),
      ("moderate", .d [("duration", .s "1-2s"), ("character", .s "smooth_flow")]),
      ("gradual", .d [("duration", .s "2-4s"), ("character", .s "seamless_blend")]),
      ("extended", .d [("duration", .s "4s+"), ("character", .s "dramatic_transformation")])])]

/-- Entries of RIBBON_TAXONOMY, key physical_properties. -/
def physicalProperties : List (String × Val) :=
  [("tension_states", .d
     [("slack", .d [("characteristics", .l ["loose_fabric", "natural_drape", "minimal_control"])]),
      ("light", .d [("characteristics", .l ["gentle_tension", "floating_quality", "subtle_control"])]),
      ("medium", .d [("characteristics", .l ["balanced_tension", "clear_shapes", "standard_control"])]),
      ("high", .d [("characteristics", .l ["taut_fabric", "crisp_lines", "maximum_control"])]),
      ("variable", .d [("characteristics", .l ["changing_tension", "dynamic_shapes", "expressive_control"])])]),
   ("arc_geometries", .d
     [("parabolic", .d [("physics", .s "natural_throw_trajectory"), ("aesthetics", .s "graceful_curves")]),
      ("circular", .d [("physics", .s "constant_radius"), ("aesthetics", .s "perfect_shapes")]),
      ("elliptical", .d [("physics", .s "dual_focal_points"), ("aesthetics", .s "dynamic_ovals")]),
      ("hyperbolic", .d [("physics", .s "diverging_paths"), ("aesthetics", .s "dramatic_spreads")]),
      ("spiral", .d [("physics", .s "rotating_radius"), ("aesthetics", .s "flowing_helixes")])]),
   ("wave_properties", .d
     [("amplitude", .l ["small", "medium", "large", "extreme"]),
      ("frequency", .l ["slow", "moderate", "fast", "rapid"]),
      ("symmetry", .l ["symmetric", "asymmetric", "progressive", "chaotic"]),
      ("decay", .l ["sustained", "gradual", "rapid", "immediate"])]),
   ("material_behavior", .d
     [("flow", .d [("characteristics", .l ["smooth_motion", "continuous_fabric", "fluid_paths"])]),
      ("snap", .d [("characteristics", .l ["sharp_movements", "crisp_sounds", "defined_endpoints"])]),
      ("float", .d [("characteristics", .l ["airborne_time", "weightless_feel", "suspended_moments"])]),
      ("whip", .d [("characteristics", .l ["crack_potential", "high_speed", "precision_control"])])])]

/-- Entries of RIBBON_TAXONOMY, key compositional_structure. -/
def compositionalStructure : List (String × Val) :=
  [("element_sequences", .d
     [("progressive_difficulty", .l ["simple_to_complex", "technical_buildup", "climactic_peak"]),
      ("thematic_variation", .l ["motif_introduction", "development", "recapitulation"]),
      ("contrasting_sections", .l ["varied_dynamics", "spatial_contrast", "tempo_shifts"]),
      ("narrative_arc", .l ["beginning", "development", "climax", "resolution"])]),
   ("body_ribbon_coordination", .d
     [("synchronous", .d [("description", .s "body_and_ribbon_move_together"), ("effect", .s "unified_motion")]),
      ("complementary", .d [("description", .s "body_and_ribbon_different_but_related"), ("effect", .s "visual_interest")]),
      ("contrasting", .d [("description", .s "body_and_ribbon_oppose"), ("effect", .s "dynamic_tension")]),
      ("independent", .d [("description", .s "body_and_ribbon_separate"), ("effect", .s "complex_layers")])]),
   ("music_synchronization", .d
     [("rhythmic_matching", .d [("precision", .s "hit_specific_beats"), ("impact", .s "musical_clarity")]),
      ("phrasing", .d [("precision", .s "match_musical_phrases"), ("impact", .s "artistic_interpretation")]),
      ("dynamic_parallel", .d [("precision", .s "match_volume_intensity"), ("impact", .s "emotional_resonance")]),
      ("structural_alignment", .d [("precision", .s "match_musical_form"), ("impact", .s "choreographic_coherence")])]),
   ("spatial_progression", .d
     [("expanding", .l ["center_to_periphery", "small_to_large", "contained_to_open"]),
      ("contracting", .l ["periphery_to_center", "large_to_small", "open_to_contained"]),
      ("traveling", .l ["diagonal_crosses", "circular_paths", "linear_trajectories"]),
      ("stationary", .l ["fixed_location", "vertical_exploration", "depth_variation"])])]

/-- RIBBON_TAXONOMY (server.py line 20): the Layer 1 taxonomy table. -/
def RIBBON_TAXONOMY : List (String × Val) :=
  [("movement_patterns", .d movementPatterns),
   ("spatial_relationships", .d spatialRelationships),
   ("temporal_dynamics", .d temporalDynamics),
   ("physical_properties", .d physicalProperties),
   ("compositional_structure", .d compositionalStructure)]

/-- Entries of COMPOSITIONAL_RULES technical_requirements, key
code_of_points_2025. -/
def codeOfPoints2025 : List (String × Val) :=
  [("difficulty_groups", .l ["Jumps/Leaps", "Balance", "Rotations", "Flexibility"]),
   ("apparatus_mastery", .l ["Throws", "Catches", "Manipulation"]),
   ("risk_elements", .l ["High_throws", "Complex_catches", "Dynamic_work"]),
   ("artistic_components", .l ["Musicality", "Expression", "Character"])]

/-- Entries of COMPOSITIONAL_RULES, key technical_requirements. -/
def techReqEntries : List (String × Val) :=
  [("code_of_points_2025", .d codeOfPoints2025),
   ("element_combinations", .d
     [("valid_sequences", .l ["throw_rotation_catch", "spiral_throw_spiral", "snake_circle_snake", "wrap_unwrap_throw"]),
      ("transition_requirements", .l ["smooth_flow", "logical_progression", "technical_feasibility"])])]

/-- COMPOSITIONAL_RULES (server.py line 178): the Layer 2 rules table. -/
def COMPOSITIONAL_RULES : List (String × Val) :=
  [("technical_requirements", .d techReqEntries),
   ("aesthetic_principles", .d
     [("visual_balance", .l ["symmetry_asymmetry", "height_variation", "spatial_distribution"]),
      ("flow_continuity", .l ["seamless_transitions", "momentum_maintenance", "organic_development"]),
      ("dynamic_range", .l ["quiet_moments", "explosive_peaks", "gradual_buildups"]),
      ("expressive_clarity", .l ["intentional_movements", "clear_character", "emotional_connection"])]),
   ("musicality_rules", .d
     [("structural_alignment", .l ["intro_matches_music", "climax_synchronized", "ending_resolution"]),
      ("rhythmic_precision", .l ["beat_accuracy", "phrase_matching", "accent_emphasis"]),
      ("interpretive_freedom", .l ["rubato_moments", "personal_expression", "artistic_choices"])])]

/-- The characteristics list of the classical style record. -/
def classicalChars : List String := ["elegant_lines", "refined_technique", "traditional_beauty"]

/-- The movement_quality value of the classical style record. -/
def classicalMQ : String := "controlled_grace"

/-- The typical_music value of the classical style record. -/
def classicalTM : String := "ballet_classical_orchestral"

/-- Entries of STYLE_VARIATIONS, key classical (the fallback style record). -/
def classicalStyle : List (String × Val) :=
  [("characteristics", .l classicalChars),
   ("movement_quality", .s classicalMQ),
   ("typical_music", .s classicalTM)]

/-- STYLE_VARIATIONS (server.py line 210): the Layer 3 style table. -/
def STYLE_VARIATIONS : List (String × Val) :=
  [("classical", .d classicalStyle),
   ("contemporary", .d
     [("characteristics", .l ["innovative_patterns", "unexpected_combinations", "modern_aesthetics"]),
      ("movement_quality", .s "dynamic_freedom"),
      ("typical_music", .s "electronic_fusion_experimental")]),
   ("dramatic", .d
     [("characteristics", .l ["intense_expression", "theatrical_quality", "emotional_depth"]),
      ("movement_quality", .s "passionate_power"),
      ("typical_music", .s "cinematic_dramatic_intense")]),
   ("lyrical", .d
     [("characteristics", .l ["flowing_movements", "soft_quality", "poetic_expression"]),
      ("movement_quality", .s "gentle_fluidity"),
      ("typical_music", .s "melodic_vocal_emotive")]),
   ("technical_virtuosic", .d
     [("characteristics", .l ["high_difficulty", "precision_execution", "mastery_display"]),
      ("movement_quality", .s "brilliant_control"),
      ("typical_music", .s "fast_complex_rhythmic")])]

/-!  The server state and the formatting operations (server.py lines
239-499).  Dictionary indexing can raise KeyError in Python, so every
operation that indexes a dictionary returns an Option String; operations
that only iterate return a plain String. -/

/-- The module-level state of the server process: the three tables. -/
structure ServerState where
  taxonomy : List (String × Val)
  rules : List (String × Val)
  styles : List (String × Val)

/-- The state the module is loaded with. -/
def initState : ServerState :=
  { taxonomy := RIBBON_TAXONOMY, rules := COMPOSITIONAL_RULES, styles := STYLE_VARIATIONS }

/-- load_taxonomy (line 239): returns the taxonomy table. -/
def load_taxonomy (S : ServerState) : List (String × Val) := S.taxonomy

/-- The line format_taxonomy_section produces for one entry of a nested
dictionary (lines 254-258): lists are comma-joined, other values print
as themselves. -/
def innerLine (kv : String × Val) : String :=
  match kv.2 with
  | .l vs => "  - " ++ kv.1 ++ ": " ++ String.intercalate ", " vs
  | v => "  - " ++ kv.1 ++ ": " ++ pyStr v

/-- Body of the innermost loop of format_taxonomy_section (lines 252-262):
the lines produced for one key/value pair of a category dictionary. -/
def fmtValue (key : String) (value : Val) : List String :=
  match value with
  | .d inner =>
      ("\n**" ++ pyTitle (pyReplaceUS key) ++ "**:") :: inner.map innerLine
  | .l vs => ["  - " ++ key ++ ": " ++ String.intercalate ", " vs]
  | v => ["  - " ++ key ++ ": " ++ pyStr v]

/-- Lines produced for one category of a section (lines 248-264). -/
def fmtDetails (category : String) (details : Val) : List String :=
  ("\n### " ++ pyTitle (pyReplaceUS category))
    :: (match details with
        | .d items => items.flatMap (fun kv => fmtValue kv.1 kv.2)
        | .l vs => ["  - " ++ String.intercalate ", " vs]
        | _ => [])

/-- The list the Python variable lines holds before the final join
(lines 246-264). -/
def sectionLines (section_name : String) (data : List (String × Val)) : List String :=
  ("\n## " ++ (pyReplaceUS (pyUpper section_name)) ++ "\n")
    :: data.flatMap (fun kv => fmtDetails kv.1 kv.2)

/-- format_taxonomy_section (line 244). -/
def format_taxonomy_section (section_name : String) (data : List (String × Val)) : String :=
  String.intercalate "\n" (sectionLines section_name data)

/-- The style record ribbon_enhance_prompt uses (line 294):
STYLE_VARIATIONS.get(style_preference, STYLE_VARIATIONS["classical"]). -/
def styleOf (styles : List (String × Val)) (sp : String) : Option Val := do
  let fallback ← dGet styles "classical"
  pure ((dGet styles sp).getD fallback)

/-- One iteration of the movement-pattern loop (lines 312-317). -/
def movementEntry (pattern_type : String) (details : Val) : Option String := do
  let d ← details.asDict
  let tys ← (← dGet d "types").asList
  let propLine ←
    match dGet d "properties" with
    | some pv => do
        let pl ← pv.asList
        pure ("- Properties: " ++ String.intercalate ", " pl ++ "\n")
    | none => pure ""
  let notes ← dGet d "technical_notes"
  pure ("\n**" ++ pyTitle (pyReplaceUS pattern_type) ++ "**\n"
    ++ "- Types: " ++ String.intercalate ", " tys ++ "\n"
    ++ propLine
    ++ "- Technical Note: " ++ pyStr notes ++ "\n")

/-- The whole movement-pattern loop of ribbon_enhance_prompt. -/
def movementSection (mpats : List (String × Val)) : Option String := do
  let parts ← mpats.mapM (fun kv => movementEntry kv.1 kv.2)
  pure (String.join parts)

/-- The technical-requirements loop (lines 331-332). -/
def techSection (treq : List (String × Val)) : String :=
  String.join (treq.map (fun kv => "- " ++ kv.1 ++ ": " ++ pyStr kv.2 ++ "\n"))

/-- The aesthetic-principles loop (lines 335-336). -/
def aesSection (aes : List (String × Val)) : Option String := do
  let parts ← aes.mapM (fun kv => do
    let elems ← kv.2.asList
    pure ("- " ++ pyTitle (pyReplaceUS kv.1) ++ ": "
      ++ String.intercalate ", " elems ++ "\n"))
  pure (String.join parts)

/-- The three style-framework lines of the enhancement (lines 302-304). -/
def styleLines (chars : List String) (mq tm : String) : String :=
  "- Character: " ++ String.intercalate ", " chars
    ++ "\n- Movement Quality: " ++ mq
    ++ "\n- Musical Context: " ++ tm

/-- The full enhancement text assembled by ribbon_enhance_prompt from the
resolved style fields and the three loop results (lines 296-356). -/
def enhAssemble (rd sp tf : String) (chars : List String) (mq tm mv tr ae : String) : String :=
  "# Enhanced Ribbon Routine Description\n\n## Original Concept\n"
  ++ rd
  ++ "\n\n"
  ++ "## Style Framework: " ++ pyTitle (pyReplaceUS sp) ++ "\n"
  ++ styleLines chars mq tm
  ++ "\n\n## Technical Vocabulary Enhancement\n\n### Movement Patterns (Layer 1 Deterministic)\n"
  ++ mv
  ++ "\n### Spatial Considerations\n- Height Zones: floor, low, mid, high, ceiling\n- Distance Variations: contact, near, mid, far, extreme\n- Plane Orientations: horizontal, vertical, diagonal, rotating\n"
  ++ "\n### Temporal Dynamics\n- Speed Range: very_slow → slow → moderate → fast → very_fast\n- Rhythmic Possibilities: regular, syncopated, polyrhythmic, rubato\n- Transition Timing: immediate, quick, moderate, gradual, extended\n"
  ++ "\n## Compositional Structure (Layer 2 Rules)\n\n### Technical Requirements\n"
  ++ tr
  ++ "\n### Aesthetic Principles\n"
  ++ ae
  ++ "\n## Expressive Integration (Layer 3 Synthesis)\n"
  ++ "\nFor a " ++ sp ++ " interpretation:\n"
  ++ "1. Movement Quality: Emphasize " ++ mq ++ "\n"
  ++ "2. Spatial Focus: Use " ++ (pyReplaceUS tf) ++ "\n"
  ++ "3. Musical Integration: Match " ++ tm ++ "\n"
  ++ "\n## Suggested Development Path\n1. Begin with foundational patterns (circles, spirals, snakes)\n2. Layer in spatial variations (height, distance, planes)\n3. Add temporal dynamics (speed changes, rhythmic variations)\n4. Integrate body-ribbon coordination\n5. Align with musical structure\n6. Polish with style-specific qualities\n"
  ++ "\n## Cost Optimization Note\nThis enhancement used:\n- Layer 1: Deterministic taxonomy mapping (0 LLM cost)\n- Layer 2: Structured rule application (0 LLM cost)\n- Layer 3: Single synthesis pass (minimal LLM cost)\n- Total savings vs pure LLM: ~60-80%\n"

/-- ribbon_enhance_prompt given an already resolved style record. -/
def enhanceWithStyle (S : ServerState) (rd sp tf : String) (style : Val) : Option String := do
  let sd ← style.asDict
  let chars ← (← dGet sd "characteristics").asList
  let mq ← dGet sd "movement_quality"
  let tm ← dGet sd "typical_music"
  let mpd ← (← dGet (load_taxonomy S) "movement_patterns").asDict
  let mv ← movementSection mpd
  let trd ← (← dGet S.rules "technical_requirements").asDict
  let aesd ← (← dGet S.rules "aesthetic_principles").asDict
  let ae ← aesSection aesd
  pure (enhAssemble rd sp tf chars (pyStr mq) (pyStr tm) mv (techSection trd) ae)

/-- ribbon_enhance_prompt (line 269). -/
def ribbon_enhance_prompt (S : ServerState) (rd : String)
    (sp : String := "classical") (tf : String := "balanced") : Option String := do
  let style ← styleOf S.styles sp
  enhanceWithStyle S rd sp tf style

/-- ribbon_movement_vocabulary (line 361). -/
def ribbon_movement_vocabulary (S : ServerState) : Option String := do
  let d ← (← dGet (load_taxonomy S) "movement_patterns").asDict
  pure (format_taxonomy_section "movement_patterns" d)

/-- ribbon_spatial_vocabulary (line 374). -/
def ribbon_spatial_vocabulary (S : ServerState) : Option String := do
  let d ← (← dGet (load_taxonomy S) "spatial_relationships").asDict
  pure (format_taxonomy_section "spatial_relationships" d)

/-- ribbon_temporal_vocabulary (line 387). -/
def ribbon_temporal_vocabulary (S : ServerState) : Option String := do
  let d ← (← dGet (load_taxonomy S) "temporal_dynamics").asDict
  pure (format_taxonomy_section "temporal_dynamics" d)

/-- ribbon_physical_properties (line 400). -/
def ribbon_physical_properties (S : ServerState) : Option String := do
  let d ← (← dGet (load_taxonomy S) "physical_properties").asDict
  pure (format_taxonomy_section "physical_properties" d)

/-- The line ribbon_composition_guide produces for one entry of a nested
rule dictionary (line 433): the value is interpolated with Python str, so
a list value prints as its repr. -/
def ruleInnerLine (p : String × Val) : String :=
  "  - " ++ p.1 ++ ": " ++ pyStr p.2 ++ "\n"

/-- The block ribbon_composition_guide produces for one key of a rule
category (lines 429-435). -/
def ruleEntryBlock (kv : String × Val) : String :=
  "\n**" ++ pyTitle (pyReplaceUS kv.1) ++ "**:\n"
  ++ (match kv.2 with
      | .d m => String.join (m.map ruleInnerLine)
      | .l vs => "  - " ++ String.intercalate ", " vs ++ "\n"
      | _ => "")

/-- One rule category of the COMPOSITIONAL RULES part of
ribbon_composition_guide (lines 427-435). -/
def ruleCategoryText (rule_category : String) (details : Val) : Option String := do
  let dd ← details.asDict
  pure ("\n### " ++ pyTitle (pyReplaceUS rule_category) ++ "\n"
    ++ String.join (dd.map ruleEntryBlock))

/-- The composition-guide text assembled from the compositional-structure
section and the rendered rule categories (lines 422-437). -/
def compositionGuideText (csd : List (String × Val)) (ruleParts : List String) : String :=
  "\n## COMPOSITIONAL STRUCTURE GUIDE\n"
  ++ format_taxonomy_section "compositional_structure" csd
  ++ "\n\n## COMPOSITIONAL RULES\n"
  ++ String.join ruleParts

/-- ribbon_composition_guide (line 413). -/
def ribbon_composition_guide (S : ServerState) : Option String := do
  let csd ← (← dGet S.taxonomy "compositional_structure").asDict
  let ruleParts ← S.rules.mapM (fun kv => ruleCategoryText kv.1 kv.2)
  pure (compositionGuideText csd ruleParts)

/-- The line ribbon_style_variations produces for one field of a style
record (lines 453-457). -/
def styleFieldLine (kv : String × Val) : String :=
  match kv.2 with
  | .l vs => "  - " ++ kv.1 ++ ": " ++ String.intercalate ", " vs ++ "\n"
  | v => "  - " ++ kv.1 ++ ": " ++ pyStr v ++ "\n"

/-- The lines one style contributes to ribbon_style_variations
(lines 451-457). -/
def styleVariationEntry (style_name : String) (details : Val) : String :=
  "\n### " ++ pyTitle (pyReplaceUS style_name) ++ "\n"
  ++ (match details with
      | .d fields => String.join (fields.map styleFieldLine)
      | _ => "")

/-- ribbon_style_variations (line 440): iterates the style table, no
dictionary indexing, hence total. -/
def ribbon_style_variations (S : ServerState) : String :=
  "\n## STYLE VARIATIONS\n"
  ++ String.join (S.styles.map (fun kv => styleVariationEntry kv.1 kv.2))

/-- The full-taxonomy text assembled from the five section dictionaries
and the rules and style tables (lines 473-497). -/
def fullTaxonomyText (mpd srd tdd ppd csd ru st : List (String × Val)) : String :=
  "# RHYTHMIC RIBBON DANCE VISUAL VOCABULARY\n\n## Complete Taxonomy - All Layers\n"
  ++ format_taxonomy_section "movement_patterns" mpd
  ++ format_taxonomy_section "spatial_relationships" srd
  ++ format_taxonomy_section "temporal_dynamics" tdd
  ++ format_taxonomy_section "physical_properties" ppd
  ++ format_taxonomy_section "compositional_structure" csd
  ++ "\n\n## COMPOSITIONAL RULES (Layer 2)\n"
  ++ String.join (ru.map (fun kv =>
      "\n### " ++ pyTitle (pyReplaceUS kv.1) ++ "\n" ++ pyStr kv.2))
  ++ "\n\n## STYLE VARIATIONS (Layer 3)\n"
  ++ String.join (st.map (fun kv =>
      "\n### " ++ pyTitle (pyReplaceUS kv.1) ++ "\n" ++ pyStr kv.2))
  ++ "\n\n---\nThree-Layer Architecture:\n- Layer 1: Deterministic taxonomy (movement, spatial, temporal, physical)\n- Layer 2: Compositional rules and technical requirements\n- Layer 3: Style variations and expressive synthesis\n\nCost optimization: ~60-80% savings vs pure LLM approaches\n"

/-- ribbon_full_taxonomy (line 462). -/
def ribbon_full_taxonomy (S : ServerState) : Option String := do
  let t := load_taxonomy S
  let mpd ← (← dGet t "movement_patterns").asDict
  let srd ← (← dGet t "spatial_relationships").asDict
  let tdd ← (← dGet t "temporal_dynamics").asDict
  let ppd ← (← dGet t "physical_properties").asDict
  let csd ← (← dGet t "compositional_structure").asDict
  pure (fullTaxonomyText mpd srd tdd ppd csd S.rules S.styles)

/-- An invocation of one of the eight exposed tools with its arguments. -/
inductive ToolCall where
  | enhance (rd sp tf : String)
  | movement
  | spatial
  | temporal
  | physical
  | composition
  | styleVars
  | fullTaxonomy

/-- Executing one tool call in a server state: the returned text and the
state afterwards. -/
def run : ToolCall → ServerState → Option String × ServerState
  | .enhance rd sp tf, S => (ribbon_enhance_prompt S rd sp tf, S)
  | .movement, S => (ribbon_movement_vocabulary S, S)
  | .spatial, S => (ribbon_spatial_vocabulary S, S)
  | .temporal, S => (ribbon_temporal_vocabulary S, S)
  | .physical, S => (ribbon_physical_properties S, S)
  | .composition, S => (ribbon_composition_guide S, S)
  | .styleVars, S => (some (ribbon_style_variations S), S)
  | .fullTaxonomy, S => (ribbon_full_taxonomy S, S)

/-- The state after a sequence of tool calls. -/
def runSeq (calls : List ToolCall) (S : ServerState) : ServerState :=
  calls.foldl (fun st c => (run c st).2) S

/-- An Option String result carries the given header when it is some text
in which the header occurs, and that text is non-empty. -/
def hasHeader (o : Option String) (h : String) : Prop :=
  ∃ pre post, o = some (pre ++ (h ++ post)) ∧ pre ++ (h ++ post) ≠ ""

/-!  Helper lemmas. -/

/-- Looking a key up in a dictionary none of whose keys is that key gives
none. -/
theorem dGet_eq_none (d : List (String × Val)) (k : String)
    (h : k ∉ d.map Prod.fst) : dGet d k = none := by
  induction d with
  | nil => rfl
  | cons p ps ih =>
    simp only [List.map_cons, List.mem_cons, not_or] at h
    simp [dGet, Ne.symm h.1, ih h.2]

/-- An unrecognized style key resolves to the classical record. -/
theorem styleOf_none (sp : String) (h : sp ∉ STYLE_VARIATIONS.map Prod.fst) :
    styleOf STYLE_VARIATIONS sp = some (Val.d classicalStyle) := by
  have hn : dGet STYLE_VARIATIONS sp = none := dGet_eq_none _ _ h
  simp only [styleOf, bind, Option.bind]
  rw [show dGet STYLE_VARIATIONS "classical" = some (Val.d classicalStyle) from rfl]
  simp [hn]

/-- With an unrecognized style key, ribbon_enhance_prompt is the
enhancement built from the classical record. -/
theorem enhance_fallback (sp : String) (h : sp ∉ STYLE_VARIATIONS.map Prod.fst)
    (rd tf : String) :
    ribbon_enhance_prompt initState rd sp tf
      = enhanceWithStyle initState rd sp tf (Val.d classicalStyle) := by
  unfold ribbon_enhance_prompt
  rw [show initState.styles = STYLE_VARIATIONS from rfl, styleOf_none sp h]
  rfl

/-- The enhancement from the classical record, in assembled form: the loop
blocks do not depend on the arguments. -/
theorem classical_form : ∃ mv tr ae, ∀ rd sp tf,
    enhanceWithStyle initState rd sp tf (Val.d classicalStyle)
      = some (enhAssemble rd sp tf classicalChars classicalMQ classicalTM mv tr ae) :=
  ⟨_, _, _, fun _ _ _ => rfl⟩

/-- Every style preference resolves to an assembled enhancement whose
style fields and loop blocks do not depend on the description or the
technical focus. -/
theorem enhance_form (sp : String) : ∃ chars mq tm mv tr ae, ∀ rd tf,
    ribbon_enhance_prompt initState rd sp tf
      = some (enhAssemble rd sp tf chars mq tm mv tr ae) := by
  by_cases h1 : sp = "classical"
  · subst h1; exact ⟨_, _, _, _, _, _, fun _ _ => rfl⟩
  by_cases h2 : sp = "contemporary"
  · subst h2; exact ⟨_, _, _, _, _, _, fun _ _ => rfl⟩
  by_cases h3 : sp = "dramatic"
  · subst h3; exact ⟨_, _, _, _, _, _, fun _ _ => rfl⟩
  by_cases h4 : sp = "lyrical"
  · subst h4; exact ⟨_, _, _, _, _, _, fun _ _ => rfl⟩
  by_cases h5 : sp = "technical_virtuosic"
  · subst h5; exact ⟨_, _, _, _, _, _, fun _ _ => rfl⟩
  have hm : sp ∉ STYLE_VARIATIONS.map Prod.fst := by
    intro hc
    simp only [STYLE_VARIATIONS, List.map_cons, List.map_nil, List.mem_cons,
      List.not_mem_nil, or_false] at hc
    rcases hc with h | h | h | h | h
    · exact h1 h
    · exact h2 h
    · exact h3 h
    · exact h4 h
    · exact h5 h
  obtain ⟨mv, tr, ae, hC⟩ := classical_form
  exact ⟨classicalChars, classicalMQ, classicalTM, mv, tr, ae,
    fun rd tf => (enhance_fallback sp hm rd tf).trans (hC rd sp tf)⟩

/-- Executing any tool call leaves the server state unchanged. -/
theorem run_state (c : ToolCall) (S : ServerState) : (run c S).2 = S := by
  cases c <;> rfl

/-- A sequence of tool calls leaves the server state unchanged. -/
theorem runSeq_eq (calls : List ToolCall) (S : ServerState) : runSeq calls S = S := by
  induction calls generalizing S with
  | nil => rfl
  | cons c cs ih =>
    show runSeq cs (run c S).2 = S
    rw [run_state, ih]

/-- C2: Every exposed tool call returns a string normally for all inputs:
every tool call on the initial state produces some string, no dictionary
access fails. -/
theorem claim_C2_tools_total (c : ToolCall) : ((run c initState).1).isSome = true := by
  cases c with
  | enhance rd sp tf =>
    obtain ⟨chars, mq, tm, mv, tr, ae, h⟩ := enhance_form sp
    show (ribbon_enhance_prompt initState rd sp tf).isSome = true
    rw [h rd tf]
    rfl
  | movement => rfl
  | spatial => rfl
  | temporal => rfl
  | physical => rfl
  | composition => rfl
  | styleVars => rfl
  | fullTaxonomy => rfl

/-- C6: Every exposed operation is deterministic and side-effect-free: the
text returned by a tool call depends only on the call itself (its tool and
arguments) and the constant tables, never on the history of earlier calls. -/
theorem claim_C6_deterministic (h₁ h₂ : List ToolCall) (c : ToolCall) :
    (run c (runSeq h₁ initState)).1 = (run c (runSeq h₂ initState)).1 := by
  rw [runSeq_eq, runSeq_eq]

/-- C7: The three constant tables are unchanged by every sequence of tool
calls: the state after any call sequence still holds the original
RIBBON_TAXONOMY, COMPOSITIONAL_RULES and STYLE_VARIATIONS. -/
theorem claim_C7_frame (calls : List ToolCall) :
    (runSeq calls initState).taxonomy = RIBBON_TAXONOMY
      ∧ (runSeq calls initState).rules = COMPOSITIONAL_RULES
      ∧ (runSeq calls initState).styles = STYLE_VARIATIONS := by
  rw [runSeq_eq]
  exact ⟨rfl, rfl, rfl⟩

/-- C1 (counterexample): with the unrecognized style key jazzy the output
is not the same string as with the default key classical: the style key
itself is embedded in the text. -/
theorem claim_C1_counterexample :
    ribbon_enhance_prompt initState "x" "jazzy" "balanced"
      ≠ ribbon_enhance_prompt initState "x" "classical" "balanced" := by
  obtain ⟨mv, tr, ae, hC⟩ := classical_form
  have hj : ribbon_enhance_prompt initState "x" "jazzy" "balanced"
      = some (enhAssemble "x" "jazzy" "balanced" classicalChars classicalMQ classicalTM mv tr ae) :=
    (enhance_fallback "jazzy" (by decide) "x" "balanced").trans (hC "x" "jazzy" "balanced")
  have hcl : ribbon_enhance_prompt initState "x" "classical" "balanced"
      = some (enhAssemble "x" "classical" "balanced" classicalChars classicalMQ classicalTM mv tr ae) := by
    have h0 : ribbon_enhance_prompt initState "x" "classical" "balanced"
        = enhanceWithStyle initState "x" "classical" "balanced" (Val.d classicalStyle) := rfl
    exact h0.trans (hC "x" "classical" "balanced")
  intro heq
  rw [hj, hcl] at heq
  have heq2 := Option.some.inj heq
  have hlen := congrArg String.length heq2
  have e1 : (pyTitle (pyReplaceUS "jazzy")).length = 5 := rfl
  have e2 : (pyTitle (pyReplaceUS "classical")).length = 9 := rfl
  have e3 : ("jazzy" : String).length = 5 := rfl
  have e4 : ("classical" : String).length = 9 := rfl
  simp only [enhAssemble, String.length_append] at hlen
  omega

/-- C1 (amended): for every routine_description and technical_focus,
calling ribbon_enhance_prompt with a style_preference that is not a key of
STYLE_VARIATIONS returns the enhancement built from the default style
record STYLE_VARIATIONS classical; the resulting string is not literally
the one returned for style_preference classical, because the given
style_preference itself is embedded in the Style Framework header and in
the For-a-interpretation line. -/
theorem claim_C1_unknown_style (rd tf sp : String)
    (h : sp ∉ STYLE_VARIATIONS.map Prod.fst) :
    ribbon_enhance_prompt initState rd sp tf
      = enhanceWithStyle initState rd sp tf (Val.d classicalStyle) :=
  enhance_fallback sp h rd tf

/-- Witness for C1 at the concrete unrecognized key jazzy. -/
theorem claim_C1_witness :
    ("jazzy" ∉ STYLE_VARIATIONS.map Prod.fst)
      ∧ ribbon_enhance_prompt initState "x" "jazzy" "balanced"
          = enhanceWithStyle initState "x" "jazzy" "balanced" (Val.d classicalStyle) :=
  ⟨by decide, claim_C1_unknown_style "x" "balanced" "jazzy" (by decide)⟩

/-- C3: with a style_preference that is not a key of STYLE_VARIATIONS,
ribbon_enhance_prompt signals no error and its output carries the
Character, Movement Quality and Musical Context lines built from the
classical record: its characteristics joined with a comma, its
movement_quality and its typical_music. -/
theorem claim_C3_fallback_lines (sp : String)
    (h : sp ∉ STYLE_VARIATIONS.map Prod.fst) (rd tf : String) :
    ∃ pre post, ribbon_enhance_prompt initState rd sp tf
      = some (pre ++ (styleLines classicalChars classicalMQ classicalTM ++ post)) := by
  obtain ⟨mv, tr, ae, hC⟩ := classical_form
  refine ⟨"# Enhanced Ribbon Routine Description\n\n## Original Concept\n" ++ rd ++ "\n\n"
      ++ "## Style Framework: " ++ pyTitle (pyReplaceUS sp) ++ "\n",
    "\n\n## Technical Vocabulary Enhancement\n\n### Movement Patterns (Layer 1 Deterministic)\n"
      ++ mv
      ++ "\n### Spatial Considerations\n- Height Zones: floor, low, mid, high, ceiling\n- Distance Variations: contact, near, mid, far, extreme\n- Plane Orientations: horizontal, vertical, diagonal, rotating\n"
      ++ "\n### Temporal Dynamics\n- Speed Range: very_slow → slow → moderate → fast → very_fast\n- Rhythmic Possibilities: regular, syncopated, polyrhythmic, rubato\n- Transition Timing: immediate, quick, moderate, gradual, extended\n"
      ++ "\n## Compositional Structure (Layer 2 Rules)\n\n### Technical Requirements\n"
      ++ tr
      ++ "\n### Aesthetic Principles\n"
      ++ ae
      ++ "\n## Expressive Integration (Layer 3 Synthesis)\n"
      ++ "\nFor a " ++ sp ++ " interpretation:\n"
      ++ "1. Movement Quality: Emphasize " ++ classicalMQ ++ "\n"
      ++ "2. Spatial Focus: Use " ++ (pyReplaceUS tf) ++ "\n"
      ++ "3. Musical Integration: Match " ++ classicalTM ++ "\n"
      ++ "\n## Suggested Development Path\n1. Begin with foundational patterns (circles, spirals, snakes)\n2. Layer in spatial variations (height, distance, planes)\n3. Add temporal dynamics (speed changes, rhythmic variations)\n4. Integrate body-ribbon coordination\n5. Align with musical structure\n6. Polish with style-specific qualities\n"
      ++ "\n## Cost Optimization Note\nThis enhancement used:\n- Layer 1: Deterministic taxonomy mapping (0 LLM cost)\n- Layer 2: Structured rule application (0 LLM cost)\n- Layer 3: Single synthesis pass (minimal LLM cost)\n- Total savings vs pure LLM: ~60-80%\n", ?_⟩
  rw [(enhance_fallback sp h rd tf).trans (hC rd sp tf)]
  simp only [enhAssemble, String.append_assoc]

/-- Witness for C3 at the concrete unrecognized key jazzy. -/
theorem claim_C3_witness :
    ("jazzy" ∉ STYLE_VARIATIONS.map Prod.fst)
      ∧ ∃ pre post, ribbon_enhance_prompt initState "d" "jazzy" "spatial_exploration"
          = some (pre ++ (styleLines classicalChars classicalMQ classicalTM ++ post)) :=
  ⟨by decide, claim_C3_fallback_lines "jazzy" (by decide) "d" "spatial_exploration"⟩

/-- C8: for every style_preference, also an unrecognized one, the output of
ribbon_enhance_prompt embeds the style_preference argument itself: with
underscores replaced by spaces and title-cased in the Style Framework
header, and verbatim in the For-a-interpretation line. -/
theorem claim_C8_embeds_style (rd sp tf : String) :
    ∃ pre mid post, ribbon_enhance_prompt initState rd sp tf
      = some (pre ++ ("## Style Framework: " ++ pyTitle (pyReplaceUS sp) ++ "\n")
          ++ mid ++ ("\nFor a " ++ sp ++ " interpretation:\n") ++ post) := by
  obtain ⟨chars, mq, tm, mv, tr, ae, h⟩ := enhance_form sp
  refine ⟨"# Enhanced Ribbon Routine Description\n\n## Original Concept\n" ++ rd ++ "\n\n",
    styleLines chars mq tm
      ++ "\n\n## Technical Vocabulary Enhancement\n\n### Movement Patterns (Layer 1 Deterministic)\n"
      ++ mv
      ++ "\n### Spatial Considerations\n- Height Zones: floor, low, mid, high, ceiling\n- Distance Variations: contact, near, mid, far, extreme\n- Plane Orientations: horizontal, vertical, diagonal, rotating\n"
      ++ "\n### Temporal Dynamics\n- Speed Range: very_slow → slow → moderate → fast → very_fast\n- Rhythmic Possibilities: regular, syncopated, polyrhythmic, rubato\n- Transition Timing: immediate, quick, moderate, gradual, extended\n"
      ++ "\n## Compositional Structure (Layer 2 Rules)\n\n### Technical Requirements\n"
      ++ tr
      ++ "\n### Aesthetic Principles\n"
      ++ ae
      ++ "\n## Expressive Integration (Layer 3 Synthesis)\n",
    "1. Movement Quality: Emphasize " ++ mq ++ "\n"
      ++ "2. Spatial Focus: Use " ++ (pyReplaceUS tf) ++ "\n"
      ++ "3. Musical Integration: Match " ++ tm ++ "\n"
      ++ "\n## Suggested Development Path\n1. Begin with foundational patterns (circles, spirals, snakes)\n2. Layer in spatial variations (height, distance, planes)\n3. Add temporal dynamics (speed changes, rhythmic variations)\n4. Integrate body-ribbon coordination\n5. Align with musical structure\n6. Polish with style-specific qualities\n"
      ++ "\n## Cost Optimization Note\nThis enhancement used:\n- Layer 1: Deterministic taxonomy mapping (0 LLM cost)\n- Layer 2: Structured rule application (0 LLM cost)\n- Layer 3: Single synthesis pass (minimal LLM cost)\n- Total savings vs pure LLM: ~60-80%\n", ?_⟩
  rw [h rd tf]
  simp only [enhAssemble, String.append_assoc]

/-- C9: the technical_focus argument is never used as a lookup key and is
not validated: for any two technical_focus values and the same other
arguments, the two outputs agree on a common front part and a common
tail and differ only in the Spatial Focus line, which shows the argument with
underscores replaced by spaces. -/
theorem claim_C9_technical_focus (rd sp tf₁ tf₂ : String) :
    ∃ pre post,
      ribbon_enhance_prompt initState rd sp tf₁
        = some (pre ++ ("2. Spatial Focus: Use " ++ pyReplaceUS tf₁ ++ "\n") ++ post)
      ∧ ribbon_enhance_prompt initState rd sp tf₂
        = some (pre ++ ("2. Spatial Focus: Use " ++ pyReplaceUS tf₂ ++ "\n") ++ post) := by
  obtain ⟨chars, mq, tm, mv, tr, ae, h⟩ := enhance_form sp
  refine ⟨"# Enhanced Ribbon Routine Description\n\n## Original Concept\n" ++ rd ++ "\n\n"
      ++ "## Style Framework: " ++ pyTitle (pyReplaceUS sp) ++ "\n"
      ++ styleLines chars mq tm
      ++ "\n\n## Technical Vocabulary Enhancement\n\n### Movement Patterns (Layer 1 Deterministic)\n"
      ++ mv
      ++ "\n### Spatial Considerations\n- Height Zones: floor, low, mid, high, ceiling\n- Distance Variations: contact, near, mid, far, extreme\n- Plane Orientations: horizontal, vertical, diagonal, rotating\n"
      ++ "\n### Temporal Dynamics\n- Speed Range: very_slow → slow → moderate → fast → very_fast\n- Rhythmic Possibilities: regular, syncopated, polyrhythmic, rubato\n- Transition Timing: immediate, quick, moderate, gradual, extended\n"
      ++ "\n## Compositional Structure (Layer 2 Rules)\n\n### Technical Requirements\n"
      ++ tr
      ++ "\n### Aesthetic Principles\n"
      ++ ae
      ++ "\n## Expressive Integration (Layer 3 Synthesis)\n"
      ++ "\nFor a " ++ sp ++ " interpretation:\n"
      ++ "1. Movement Quality: Emphasize " ++ mq ++ "\n",
    "3. Musical Integration: Match " ++ tm ++ "\n"
      ++ "\n## Suggested Development Path\n1. Begin with foundational patterns (circles, spirals, snakes)\n2. Layer in spatial variations (height, distance, planes)\n3. Add temporal dynamics (speed changes, rhythmic variations)\n4. Integrate body-ribbon coordination\n5. Align with musical structure\n6. Polish with style-specific qualities\n"
      ++ "\n## Cost Optimization Note\nThis enhancement used:\n- Layer 1: Deterministic taxonomy mapping (0 LLM cost)\n- Layer 2: Structured rule application (0 LLM cost)\n- Layer 3: Single synthesis pass (minimal LLM cost)\n- Total savings vs pure LLM: ~60-80%\n",
    ?_, ?_⟩
  · rw [h rd tf₁]
    simp only [enhAssemble, String.append_assoc]
  · rw [h rd tf₂]
    simp only [enhAssemble, String.append_assoc]

/-- C10: for every routine_description, the output of
ribbon_enhance_prompt carries routine_description verbatim and unescaped
immediately under the Original Concept header. -/
theorem claim_C10_original_concept (rd sp tf : String) :
    ∃ post, ribbon_enhance_prompt initState rd sp tf
      = some ("# Enhanced Ribbon Routine Description\n\n## Original Concept\n"
          ++ (rd ++ post)) := by
  obtain ⟨chars, mq, tm, mv, tr, ae, h⟩ := enhance_form sp
  refine ⟨"\n\n"
      ++ "## Style Framework: " ++ pyTitle (pyReplaceUS sp) ++ "\n"
      ++ styleLines chars mq tm
      ++ "\n\n## Technical Vocabulary Enhancement\n\n### Movement Patterns (Layer 1 Deterministic)\n"
      ++ mv
      ++ "\n### Spatial Considerations\n- Height Zones: floor, low, mid, high, ceiling\n- Distance Variations: contact, near, mid, far, extreme\n- Plane Orientations: horizontal, vertical, diagonal, rotating\n"
      ++ "\n### Temporal Dynamics\n- Speed Range: very_slow → slow → moderate → fast → very_fast\n- Rhythmic Possibilities: regular, syncopated, polyrhythmic, rubato\n- Transition Timing: immediate, quick, moderate, gradual, extended\n"
      ++ "\n## Compositional Structure (Layer 2 Rules)\n\n### Technical Requirements\n"
      ++ tr
      ++ "\n### Aesthetic Principles\n"
      ++ ae
      ++ "\n## Expressive Integration (Layer 3 Synthesis)\n"
      ++ "\nFor a " ++ sp ++ " interpretation:\n"
      ++ "1. Movement Quality: Emphasize " ++ mq ++ "\n"
      ++ "2. Spatial Focus: Use " ++ (pyReplaceUS tf) ++ "\n"
      ++ "3. Musical Integration: Match " ++ tm ++ "\n"
      ++ "\n## Suggested Development Path\n1. Begin with foundational patterns (circles, spirals, snakes)\n2. Layer in spatial variations (height, distance, planes)\n3. Add temporal dynamics (speed changes, rhythmic variations)\n4. Integrate body-ribbon coordination\n5. Align with musical structure\n6. Polish with style-specific qualities\n"
      ++ "\n## Cost Optimization Note\nThis enhancement used:\n- Layer 1: Deterministic taxonomy mapping (0 LLM cost)\n- Layer 2: Structured rule application (0 LLM cost)\n- Layer 3: Single synthesis pass (minimal LLM cost)\n- Total savings vs pure LLM: ~60-80%\n", ?_⟩
  rw [h rd tf]
  simp only [enhAssemble, String.append_assoc]

/-- A string with a non-empty middle factor is not empty. -/
theorem concat_ne_empty (pre h post : String) (hh : h.length ≠ 0) :
    pre ++ (h ++ post) ≠ "" := by
  intro hc
  have hlen := congrArg String.length hc
  simp only [String.length_append, String.length_empty] at hlen
  omega

/-- The accumulator of the intercalate loop starts its result. -/
theorem intercalate_go_acc (s : String) (l : List String) (acc : String) :
    ∃ t, String.intercalate.go acc s l = acc ++ t := by
  induction l generalizing acc with
  | nil => exact ⟨"", (String.append_empty acc).symm⟩
  | cons a as ih =>
    obtain ⟨t, ht⟩ := ih (acc ++ s ++ a)
    refine ⟨s ++ (a ++ t), ?_⟩
    rw [show String.intercalate.go acc s (a :: as)
          = String.intercalate.go (acc ++ s ++ a) s as from rfl, ht]
    simp only [String.append_assoc]

/-- The first element of a joined list starts the join. -/
theorem intercalate_head (s a : String) (l : List String) :
    ∃ t, String.intercalate s (a :: l) = a ++ t :=
  intercalate_go_acc s l a

/-- A section rendered by format_taxonomy_section carries the upper-cased
section header. -/
theorem hasHeader_section (o : Option String) (sec header : String)
    (data : List (String × Val))
    (ho : o = some (format_taxonomy_section sec data))
    (hh : "\n## " ++ (pyReplaceUS (pyUpper sec)) ++ "\n" = "\n" ++ (header ++ "\n"))
    (hl : header.length ≠ 0) : hasHeader o header := by
  obtain ⟨t, ht⟩ := intercalate_head "\n"
    ("\n## " ++ (pyReplaceUS (pyUpper sec)) ++ "\n")
    (data.flatMap (fun kv => fmtDetails kv.1 kv.2))
  refine ⟨"\n", "\n" ++ t, ?_, concat_ne_empty _ _ _ hl⟩
  rw [ho]
  show some (String.intercalate "\n"
    (("\n## " ++ (pyReplaceUS (pyUpper sec)) ++ "\n")
      :: data.flatMap (fun kv => fmtDetails kv.1 kv.2))) = _
  rw [ht, hh]
  simp only [String.append_assoc]

set_option maxRecDepth 2000 in
/-- C5: each tool produces non-empty text carrying its section headers:
the four vocabulary tools their upper-cased section names, the composition
guide its two headers, the style tool its header, the full taxonomy its
title, and ribbon_enhance_prompt its title for every input. -/
theorem claim_C5_headers :
    hasHeader (run .movement initState).1 "## MOVEMENT PATTERNS"
    ∧ hasHeader (run .spatial initState).1 "## SPATIAL RELATIONSHIPS"
    ∧ hasHeader (run .temporal initState).1 "## TEMPORAL DYNAMICS"
    ∧ hasHeader (run .physical initState).1 "## PHYSICAL PROPERTIES"
    ∧ hasHeader (run .composition initState).1 "## COMPOSITIONAL STRUCTURE GUIDE"
    ∧ hasHeader (run .composition initState).1 "## COMPOSITIONAL RULES"
    ∧ hasHeader (run .styleVars initState).1 "## STYLE VARIATIONS"
    ∧ hasHeader (run .fullTaxonomy initState).1 "# RHYTHMIC RIBBON DANCE VISUAL VOCABULARY"
    ∧ ∀ rd sp tf, hasHeader (run (.enhance rd sp tf) initState).1
        "# Enhanced Ribbon Routine Description" := by
  refine ⟨?_, ?_, ?_, ?_, ?_, ?_, ?_, ?_, ?_⟩
  · exact hasHeader_section _ "movement_patterns" _ movementPatterns rfl rfl (by decide)
  · exact hasHeader_section _ "spatial_relationships" _ spatialRelationships rfl rfl (by decide)
  · exact hasHeader_section _ "temporal_dynamics" _ temporalDynamics rfl rfl (by decide)
  · exact hasHeader_section _ "physical_properties" _ physicalProperties rfl rfl (by decide)
  · obtain ⟨rp, hrp⟩ : ∃ rp, ribbon_composition_guide initState
        = some ("\n## COMPOSITIONAL STRUCTURE GUIDE\n"
            ++ format_taxonomy_section "compositional_structure" compositionalStructure
            ++ "\n\n## COMPOSITIONAL RULES\n" ++ String.join rp) := ⟨_, rfl⟩
    refine ⟨"\n", "\n"
        ++ (format_taxonomy_section "compositional_structure" compositionalStructure
            ++ ("\n\n## COMPOSITIONAL RULES\n" ++ String.join rp)), ?_,
      concat_ne_empty _ _ _ (by decide)⟩
    show ribbon_composition_guide initState = _
    rw [hrp, show ("\n## COMPOSITIONAL STRUCTURE GUIDE\n" : String)
          = "\n" ++ ("## COMPOSITIONAL STRUCTURE GUIDE" ++ "\n") from rfl]
    simp only [String.append_assoc]
  · obtain ⟨rp, hrp⟩ : ∃ rp, ribbon_composition_guide initState
        = some ("\n## COMPOSITIONAL STRUCTURE GUIDE\n"
            ++ format_taxonomy_section "compositional_structure" compositionalStructure
            ++ "\n\n## COMPOSITIONAL RULES\n" ++ String.join rp) := ⟨_, rfl⟩
    refine ⟨"\n## COMPOSITIONAL STRUCTURE GUIDE\n"
        ++ format_taxonomy_section "compositional_structure" compositionalStructure
        ++ "\n\n", "\n" ++ String.join rp, ?_, concat_ne_empty _ _ _ (by decide)⟩
    show ribbon_composition_guide initState = _
    rw [hrp, show ("\n\n## COMPOSITIONAL RULES\n" : String)
          = "\n\n" ++ ("## COMPOSITIONAL RULES" ++ "\n") from rfl]
    simp only [String.append_assoc]
  · obtain ⟨j, hj⟩ : ∃ j, ribbon_style_variations initState
        = "\n## STYLE VARIATIONS\n" ++ j := ⟨_, rfl⟩
    refine ⟨"\n", "\n" ++ j, ?_, concat_ne_empty _ _ _ (by decide)⟩
    show some (ribbon_style_variations initState) = _
    rw [hj, show ("\n## STYLE VARIATIONS\n" : String)
          = "\n" ++ ("## STYLE VARIATIONS" ++ "\n") from rfl]
    simp only [String.append_assoc]
  · have hf : ribbon_full_taxonomy initState
        = some (fullTaxonomyText movementPatterns spatialRelationships temporalDynamics
            physicalProperties compositionalStructure COMPOSITIONAL_RULES STYLE_VARIATIONS) := rfl
    refine ⟨"", "\n\n## Complete Taxonomy - All Layers\n"
        ++ format_taxonomy_section "movement_patterns" movementPatterns
        ++ format_taxonomy_section "spatial_relationships" spatialRelationships
        ++ format_taxonomy_section "temporal_dynamics" temporalDynamics
        ++ format_taxonomy_section "physical_properties" physicalProperties
        ++ format_taxonomy_section "compositional_structure" compositionalStructure
        ++ "\n\n## COMPOSITIONAL RULES (Layer 2)\n"
        ++ String.join (COMPOSITIONAL_RULES.map (fun kv =>
            "\n### " ++ pyTitle (pyReplaceUS kv.1) ++ "\n" ++ pyStr kv.2))
        ++ "\n\n## STYLE VARIATIONS (Layer 3)\n"
        ++ String.join (STYLE_VARIATIONS.map (fun kv =>
            "\n### " ++ pyTitle (pyReplaceUS kv.1) ++ "\n" ++ pyStr kv.2))
        ++ "\n\n---\nThree-Layer Architecture:\n- Layer 1: Deterministic taxonomy (movement, spatial, temporal, physical)\n- Layer 2: Compositional rules and technical requirements\n- Layer 3: Style variations and expressive synthesis\n\nCost optimization: ~60-80% savings vs pure LLM approaches\n", ?_,
      concat_ne_empty _ _ _ (by decide)⟩
    show ribbon_full_taxonomy initState = _
    rw [hf]
    simp only [fullTaxonomyText, String.append_assoc, String.empty_append]
    rw [show ("# RHYTHMIC RIBBON DANCE VISUAL VOCABULARY\n\n## Complete Taxonomy - All Layers\n" : String)
          = "# RHYTHMIC RIBBON DANCE VISUAL VOCABULARY"
            ++ "\n\n## Complete Taxonomy - All Layers\n" from rfl]
    simp only [String.append_assoc]
  · intro rd sp tf
    obtain ⟨chars, mq, tm, mv, tr, ae, h⟩ := enhance_form sp
    refine ⟨"", "\n\n## Original Concept\n"
        ++ rd ++ "\n\n"
        ++ "## Style Framework: " ++ pyTitle (pyReplaceUS sp) ++ "\n"
        ++ styleLines chars mq tm
        ++ "\n\n## Technical Vocabulary Enhancement\n\n### Movement Patterns (Layer 1 Deterministic)\n"
        ++ mv
        ++ "\n### Spatial Considerations\n- Height Zones: floor, low, mid, high, ceiling\n- Distance Variations: contact, near, mid, far, extreme\n- Plane Orientations: horizontal, vertical, diagonal, rotating\n"
        ++ "\n### Temporal Dynamics\n- Speed Range: very_slow → slow → moderate → fast → very_fast\n- Rhythmic Possibilities: regular, syncopated, polyrhythmic, rubato\n- Transition Timing: immediate, quick, moderate, gradual, extended\n"
        ++ "\n## Compositional Structure (Layer 2 Rules)\n\n### Technical Requirements\n"
        ++ tr
        ++ "\n### Aesthetic Principles\n"
        ++ ae
        ++ "\n## Expressive Integration (Layer 3 Synthesis)\n"
        ++ "\nFor a " ++ sp ++ " interpretation:\n"
        ++ "1. Movement Quality: Emphasize " ++ mq ++ "\n"
        ++ "2. Spatial Focus: Use " ++ (pyReplaceUS tf) ++ "\n"
        ++ "3. Musical Integration: Match " ++ tm ++ "\n"
        ++ "\n## Suggested Development Path\n1. Begin with foundational patterns (circles, spirals, snakes)\n2. Layer in spatial variations (height, distance, planes)\n3. Add temporal dynamics (speed changes, rhythmic variations)\n4. Integrate body-ribbon coordination\n5. Align with musical structure\n6. Polish with style-specific qualities\n"
        ++ "\n## Cost Optimization Note\nThis enhancement used:\n- Layer 1: Deterministic taxonomy mapping (0 LLM cost)\n- Layer 2: Structured rule application (0 LLM cost)\n- Layer 3: Single synthesis pass (minimal LLM cost)\n- Total savings vs pure LLM: ~60-80%\n", ?_,
      concat_ne_empty _ _ _ (by decide)⟩
    show ribbon_enhance_prompt initState rd sp tf = _
    rw [h rd tf]
    simp only [enhAssemble, String.append_assoc, String.empty_append]
    rw [show ("# Enhanced Ribbon Routine Description\n\n## Original Concept\n" : String)
          = "# Enhanced Ribbon Routine Description" ++ "\n\n## Original Concept\n" from rfl]
    simp only [String.append_assoc]

/-- Folding string concatenation from an accumulator prepends the
accumulator. -/
theorem foldl_append_eq (xs : List String) (acc : String) :
    xs.foldl (fun r s => r ++ s) acc = acc ++ xs.foldl (fun r s => r ++ s) "" := by
  induction xs generalizing acc with
  | nil => simp only [List.foldl_nil, String.append_empty]
  | cons x xs ih =>
    simp only [List.foldl_cons]
    rw [ih (acc ++ x), ih ("" ++ x), String.empty_append]
    simp only [String.append_assoc]

/-- String.join splits off its first element. -/
theorem join_cons (x : String) (xs : List String) :
    String.join (x :: xs) = x ++ String.join xs := by
  show (x :: xs).foldl (fun r s => r ++ s) "" = x ++ xs.foldl (fun r s => r ++ s) ""
  simp only [List.foldl_cons]
  rw [foldl_append_eq xs ("" ++ x), String.empty_append]

/-- The contribution of any list element can be isolated inside the join
of the mapped list. -/
theorem join_split {α : Type _} (f : α → String) (l : List α) (a : α) (h : a ∈ l) :
    ∃ p q, String.join (l.map f) = p ++ (f a ++ q) := by
  induction l with
  | nil => cases h
  | cons b bs ih =>
    rcases List.mem_cons.mp h with rfl | hmem
    · exact ⟨"", String.join (bs.map f), by
        rw [List.map_cons, join_cons, String.empty_append]⟩
    · obtain ⟨p, q, hp⟩ := ih hmem
      refine ⟨f b ++ p, q, ?_⟩
      rw [List.map_cons, join_cons, hp]
      simp only [String.append_assoc]

/-- Splitting the join of a mapM result around the image of any element:
if the monadic map succeeds, every element's rendered text occurs inside
the joined output. -/
theorem mapM_join_split {α : Type _} (f : α → Option String) (l : List α) :
    ∀ (parts : List String), l.mapM f = some parts →
      ∀ a, a ∈ l → ∀ s, f a = some s →
      ∃ p q, String.join parts = p ++ (s ++ q) := by
  induction l with
  | nil =>
    intro parts _ a ha
    cases ha
  | cons b bs ih =>
    intro parts hparts a ha s hs
    rw [List.mapM_cons] at hparts
    simp only [Option.bind_eq_bind, Option.bind_eq_some, Option.pure_def,
      Option.some.injEq] at hparts
    obtain ⟨x, hb, xs, hbs, hcons⟩ := hparts
    subst hcons
    rcases List.mem_cons.mp ha with rfl | hmem
    · rw [hb] at hs
      injection hs with hs
      subst hs
      exact ⟨"", String.join xs, by rw [join_cons, String.empty_append]⟩
    · obtain ⟨p, q, hp⟩ := ih xs hbs a hmem s hs
      refine ⟨x ++ p, q, ?_⟩
      rw [join_cons, hp]
      simp only [String.append_assoc]

/-- Any list value nested inside a rule sub-dictionary of
COMPOSITIONAL_RULES appears in the composition-guide output rendered as
its Python repr (server.py line 433 interpolates the value with str). -/
theorem ruleList_repr_split (rc key k : String) (entries m : List (String × Val))
    (vs : List String)
    (hrc : (rc, Val.d entries) ∈ COMPOSITIONAL_RULES)
    (hkey : (key, Val.d m) ∈ entries)
    (hk : (k, Val.l vs) ∈ m) :
    ∃ p q, ribbon_composition_guide initState
      = some (p ++ (("  - " ++ k ++ ": " ++ pyRepr (Val.l vs) ++ "\n") ++ q)) := by
  obtain ⟨parts, hparts⟩ : ∃ parts,
      initState.rules.mapM (fun kv => ruleCategoryText kv.1 kv.2) = some parts := ⟨_, rfl⟩
  have h0 : ribbon_composition_guide initState
      = (initState.rules.mapM (fun kv => ruleCategoryText kv.1 kv.2)).bind
          (fun ruleParts => some (compositionGuideText compositionalStructure ruleParts)) := rfl
  have hcg : ribbon_composition_guide initState
      = some (compositionGuideText compositionalStructure parts) := by
    rw [h0, hparts]
    rfl
  have hf : (fun kv : String × Val => ruleCategoryText kv.1 kv.2) (rc, Val.d entries)
      = some ("\n### " ++ pyTitle (pyReplaceUS rc) ++ "\n"
          ++ String.join (entries.map ruleEntryBlock)) := rfl
  obtain ⟨p1, q1, h1⟩ := mapM_join_split _ initState.rules parts hparts
    (rc, Val.d entries) hrc _ hf
  obtain ⟨p2, q2, h2⟩ := join_split ruleEntryBlock entries (key, Val.d m) hkey
  obtain ⟨p3, q3, h3⟩ := join_split ruleInnerLine m (k, Val.l vs) hk
  rw [show ruleInnerLine (k, Val.l vs)
        = "  - " ++ k ++ ": " ++ pyRepr (Val.l vs) ++ "\n" from rfl] at h3
  rw [show ruleEntryBlock (key, Val.d m)
        = "\n**" ++ pyTitle (pyReplaceUS key) ++ "**:\n"
          ++ String.join (m.map ruleInnerLine) from rfl, h3] at h2
  rw [h2] at h1
  refine ⟨"\n## COMPOSITIONAL STRUCTURE GUIDE\n"
      ++ format_taxonomy_section "compositional_structure" compositionalStructure
      ++ "\n\n## COMPOSITIONAL RULES\n"
      ++ p1 ++ "\n### " ++ pyTitle (pyReplaceUS rc) ++ "\n"
      ++ p2 ++ "\n**" ++ pyTitle (pyReplaceUS key) ++ "**:\n" ++ p3,
    q3 ++ (q2 ++ q1), ?_⟩
  rw [hcg]
  simp only [compositionGuideText]
  rw [h1]
  simp only [String.append_assoc]

/-- C4 (counterexample): the difficulty_groups list field of
COMPOSITIONAL_RULES is a list-valued field of the constant tables, yet
ribbon_composition_guide renders it as the Python list repr, bracketed
with quoted elements, which is not the elements joined with a comma and a
space. -/
theorem claim_C4_counterexample :
    (("difficulty_groups", Val.l ["Jumps/Leaps", "Balance", "Rotations", "Flexibility"])
        ∈ codeOfPoints2025)
    ∧ pyRepr (Val.l ["Jumps/Leaps", "Balance", "Rotations", "Flexibility"])
        = "['Jumps/Leaps', 'Balance', 'Rotations', 'Flexibility']"
    ∧ pyRepr (Val.l ["Jumps/Leaps", "Balance", "Rotations", "Flexibility"])
        ≠ String.intercalate ", " ["Jumps/Leaps", "Balance", "Rotations", "Flexibility"]
    ∧ (∃ p q, ribbon_composition_guide initState
        = some (p ++ (("  - " ++ "difficulty_groups" ++ ": "
            ++ pyRepr (Val.l ["Jumps/Leaps", "Balance", "Rotations", "Flexibility"]) ++ "\n") ++ q))) :=
  ⟨List.Mem.head _, rfl, by decide,
    ruleList_repr_split "technical_requirements" "code_of_points_2025" "difficulty_groups"
      techReqEntries codeOfPoints2025 ["Jumps/Leaps", "Balance", "Rotations", "Flexibility"]
      (List.Mem.head _) (List.Mem.head _) (List.Mem.head _)⟩

/-- C4 (amended): list-valued fields rendered through
format_taxonomy_section, at both nesting depths of every RIBBON_TAXONOMY
section, and through ribbon_style_variations are rendered as a single
comma-separated string joined with a comma and a space, elements in source
order; the list fields nested inside the COMPOSITIONAL_RULES
sub-dictionaries are instead interpolated with Python str and so appear in
the composition-guide output as Python list reprs, not comma-joined. -/
theorem claim_C4_list_rendering :
    (∀ (name cat key : String) (data items : List (String × Val)) (vs : List String),
        (name, Val.d data) ∈ RIBBON_TAXONOMY → (cat, Val.d items) ∈ data
        → (key, Val.l vs) ∈ items
        → ("  - " ++ key ++ ": " ++ String.intercalate ", " vs) ∈ sectionLines name data)
    ∧ (∀ (name cat key k : String) (data items inner : List (String × Val)) (vs : List String),
        (name, Val.d data) ∈ RIBBON_TAXONOMY → (cat, Val.d items) ∈ data
        → (key, Val.d inner) ∈ items → (k, Val.l vs) ∈ inner
        → ("  - " ++ k ++ ": " ++ String.intercalate ", " vs) ∈ sectionLines name data)
    ∧ (∀ (sty key : String) (fields : List (String × Val)) (vs : List String),
        (sty, Val.d fields) ∈ STYLE_VARIATIONS → (key, Val.l vs) ∈ fields
        → ∃ p q, ribbon_style_variations initState
            = p ++ (("  - " ++ key ++ ": " ++ String.intercalate ", " vs ++ "\n") ++ q))
    ∧ (∀ (rc key k : String) (entries m : List (String × Val)) (vs : List String),
        (rc, Val.d entries) ∈ COMPOSITIONAL_RULES → (key, Val.d m) ∈ entries
        → (k, Val.l vs) ∈ m
        → ∃ p q, ribbon_composition_guide initState
            = some (p ++ (("  - " ++ k ++ ": " ++ pyRepr (Val.l vs) ++ "\n") ++ q))) := by
  refine ⟨?_, ?_, ?_, ?_⟩
  · intro name cat key data items vs _ hc hk
    simp only [sectionLines, List.mem_cons]
    right
    refine List.mem_flatMap.mpr ⟨(cat, Val.d items), hc, ?_⟩
    simp only [fmtDetails, List.mem_cons]
    right
    refine List.mem_flatMap.mpr ⟨(key, Val.l vs), hk, ?_⟩
    simp [fmtValue]
  · intro name cat key k data items inner vs _ hc hk hkk
    simp only [sectionLines, List.mem_cons]
    right
    refine List.mem_flatMap.mpr ⟨(cat, Val.d items), hc, ?_⟩
    simp only [fmtDetails, List.mem_cons]
    right
    refine List.mem_flatMap.mpr ⟨(key, Val.d inner), hk, ?_⟩
    simp only [fmtValue, List.mem_cons]
    right
    exact List.mem_map.mpr ⟨(k, Val.l vs), hkk, rfl⟩
  · intro sty key fields vs hsty hkey
    obtain ⟨p1, q1, h1s⟩ := join_split (fun kv => styleVariationEntry kv.1 kv.2)
      STYLE_VARIATIONS (sty, Val.d fields) hsty
    obtain ⟨p2, q2, h2s⟩ := join_split styleFieldLine fields (key, Val.l vs) hkey
    rw [show styleVariationEntry (sty, Val.d fields).1 (sty, Val.d fields).2
          = "\n### " ++ pyTitle (pyReplaceUS sty) ++ "\n"
            ++ String.join (fields.map styleFieldLine) from rfl] at h1s
    rw [h2s, show styleFieldLine (key, Val.l vs)
          = "  - " ++ key ++ ": " ++ String.intercalate ", " vs ++ "\n" from rfl] at h1s
    refine ⟨"\n## STYLE VARIATIONS\n"
        ++ (p1 ++ ("\n### " ++ pyTitle (pyReplaceUS sty) ++ "\n" ++ p2)),
      q2 ++ q1, ?_⟩
    show "\n## STYLE VARIATIONS\n"
        ++ String.join (STYLE_VARIATIONS.map (fun kv => styleVariationEntry kv.1 kv.2)) = _
    rw [h1s]
    simp only [String.append_assoc]
  · intro rc key k entries m vs hrc hkey hk
    exact ruleList_repr_split rc key k entries m vs hrc hkey hk

/-- Witness for C4 at concrete table entries: the types list of the
spirals category, the techniques list of the floor height zone, the
characteristics list of the classical style, and the repr-rendered
difficulty_groups list of the code-of-points rules. -/
theorem claim_C4_witness :
    ((("movement_patterns", Val.d movementPatterns) ∈ RIBBON_TAXONOMY)
      ∧ (("spirals", Val.d spiralsEntries) ∈ movementPatterns)
      ∧ (("types", Val.l ["vertical", "horizontal", "diagonal", "conical"]) ∈ spiralsEntries)
      ∧ ("  - " ++ "types" ++ ": "
            ++ String.intercalate ", " ["vertical", "horizontal", "diagonal", "conical"])
          ∈ sectionLines "movement_patterns" movementPatterns)
    ∧ ((("spatial_relationships", Val.d spatialRelationships) ∈ RIBBON_TAXONOMY)
      ∧ (("height_zones", Val.d heightZonesEntries) ∈ spatialRelationships)
      ∧ (("floor", Val.d floorEntries) ∈ heightZonesEntries)
      ∧ (("techniques", Val.l ["floor_rolls", "low_snakes", "ground_spirals"]) ∈ floorEntries)
      ∧ ("  - " ++ "techniques" ++ ": "
            ++ String.intercalate ", " ["floor_rolls", "low_snakes", "ground_spirals"])
          ∈ sectionLines "spatial_relationships" spatialRelationships)
    ∧ ((("classical", Val.d classicalStyle) ∈ STYLE_VARIATIONS)
      ∧ (("characteristics", Val.l classicalChars) ∈ classicalStyle)
      ∧ ∃ p q, ribbon_style_variations initState
          = p ++ (("  - " ++ "characteristics" ++ ": "
              ++ String.intercalate ", " classicalChars ++ "\n") ++ q))
    ∧ ((("technical_requirements", Val.d techReqEntries) ∈ COMPOSITIONAL_RULES)
      ∧ (("code_of_points_2025", Val.d codeOfPoints2025) ∈ techReqEntries)
      ∧ (("difficulty_groups", Val.l ["Jumps/Leaps", "Balance", "Rotations", "Flexibility"])
          ∈ codeOfPoints2025)
      ∧ ∃ p q, ribbon_composition_guide initState
          = some (p ++ (("  - " ++ "difficulty_groups" ++ ": "
              ++ pyRepr (Val.l ["Jumps/Leaps", "Balance", "Rotations", "Flexibility"]) ++ "\n") ++ q))) := by
  have m1 : ("movement_patterns", Val.d movementPatterns) ∈ RIBBON_TAXONOMY := List.Mem.head _
  have m2 : ("spirals", Val.d spiralsEntries) ∈ movementPatterns := List.Mem.head _
  have m3 : ("types", Val.l ["vertical", "horizontal", "diagonal", "conical"]) ∈ spiralsEntries :=
    List.Mem.head _
  have n1 : ("spatial_relationships", Val.d spatialRelationships) ∈ RIBBON_TAXONOMY :=
    List.Mem.tail _ (List.Mem.head _)
  have n2 : ("height_zones", Val.d heightZonesEntries) ∈ spatialRelationships := List.Mem.head _
  have n3 : ("floor", Val.d floorEntries) ∈ heightZonesEntries := List.Mem.head _
  have n4 : ("techniques", Val.l ["floor_rolls", "low_snakes", "ground_spirals"]) ∈ floorEntries :=
    List.Mem.tail _ (List.Mem.head _)
  have s1 : ("classical", Val.d classicalStyle) ∈ STYLE_VARIATIONS := List.Mem.head _
  have s2 : ("characteristics", Val.l classicalChars) ∈ classicalStyle := List.Mem.head _
  have r1 : ("technical_requirements", Val.d techReqEntries) ∈ COMPOSITIONAL_RULES :=
    List.Mem.head _
  have r2 : ("code_of_points_2025", Val.d codeOfPoints2025) ∈ techReqEntries := List.Mem.head _
  have r3 : ("difficulty_groups", Val.l ["Jumps/Leaps", "Balance", "Rotations", "Flexibility"])
      ∈ codeOfPoints2025 := List.Mem.head _
  exact ⟨⟨m1, m2, m3,
      claim_C4_list_rendering.1 "movement_patterns" "spirals" "types"
        movementPatterns spiralsEntries ["vertical", "horizontal", "diagonal", "conical"] m1 m2 m3⟩,
    ⟨n1, n2, n3, n4,
      claim_C4_list_rendering.2.1 "spatial_relationships" "height_zones" "floor" "techniques"
        spatialRelationships heightZonesEntries floorEntries
        ["floor_rolls", "low_snakes", "ground_spirals"] n1 n2 n3 n4⟩,
    ⟨s1, s2,
      claim_C4_list_rendering.2.2.1 "classical" "characteristics" classicalStyle
        classicalChars s1 s2⟩,
    ⟨r1, r2, r3,
      claim_C4_list_rendering.2.2.2 "technical_requirements" "code_of_points_2025"
        "difficulty_groups" techReqEntries codeOfPoints2025
        ["Jumps/Leaps", "Balance", "Rotations", "Flexibility"] r1 r2 r3⟩⟩
